import Mathlib

/-!
Shallow embedding of `src/operation_log.py`: an authorization-and-audit core.

Modelling conventions:
* Python `Enum Operation` becomes an inductive type; `Operation.value` is the
  enum member's string value and `Operation.ofValue` is the `Operation(s)` enum
  lookup (returning `none` where Python raises `ValueError`).
* Python `set` becomes a duplicate-free `List` built with `setAdd` (insert if
  absent), so that entry counts are observable.
* Python `dict` becomes an association list with first-match lookup
  (`dictGet`) and insert-or-replace (`dictSet`); Python dict keys are unique,
  which these operations preserve.
* `datetime` timestamps are modelled as `Nat` (microseconds since the epoch);
  `datetime` comparison is `Nat` order.  The stdlib pair
  `isoformat`/`fromisoformat` is an exact textual inverse, modelled here by the
  decimal-digit codec `Nat.digits 10` / `Nat.ofDigits 10`.
* The JSON file written by `json.dump` / read by `json.load` is modelled at the
  level of the dict records (`LogDict`); a missing file (`FileNotFoundError`)
  is `none`.
* Exceptions become `Except`; `PermissionError` carries its message, and
  `str(e)` on it returns that message.
* Side effects of `GenerateReportAction.execute` (the audit log and the
  `print` call, which is the demo action's body effect) are threaded through
  an explicit `ExecState`; `uuid.uuid4()` is modelled by a fresh-id counter
  and `datetime.now()` by the state's clock.
-/

/-- The closed `Operation` enumeration (source lines 9-15). -/
inductive Operation where
  | CREATE_USER
  | DELETE_USER
  | EDIT_USER
  | VIEW_REPORTS
  | GENERATE_REPORTS
  | MANAGE_UNIT
deriving DecidableEq

/-- The string value of each enum member (source lines 10-15). -/
def Operation.value : Operation → String
  | .CREATE_USER => "create_user"
  | .DELETE_USER => "delete_user"
  | .EDIT_USER => "edit_user"
  | .VIEW_REPORTS => "view_reports"
  | .GENERATE_REPORTS => "generate_reports"
  | .MANAGE_UNIT => "manage_unit"

/-- Enum lookup `Operation(s)` (used at source line 60); Python raises
`ValueError` on an unknown value, modelled as `none`. -/
def Operation.ofValue (s : String) : Option Operation :=
  if s = "create_user" then some .CREATE_USER
  else if s = "delete_user" then some .DELETE_USER
  else if s = "edit_user" then some .EDIT_USER
  else if s = "view_reports" then some .VIEW_REPORTS
  else if s = "generate_reports" then some .GENERATE_REPORTS
  else if s = "manage_unit" then some .MANAGE_UNIT
  else none

/-- Timestamps: `datetime` modelled as microseconds since the epoch. -/
abbrev DateTime := Nat

/-- The dataclass `Unit` (source lines 17-20), renamed because `Unit` is taken
by Lean's unit type. -/
structure OrgUnit where
  id : String
  name : String
deriving DecidableEq

/-- The dataclass `OperationLog` (source lines 22-31): one audit entry. -/
structure OperationLog where
  id : String
  operator_code : String
  operator_role : String
  operation : Operation
  unit_id : Option String
  timestamp : DateTime
  status : String
  details : Option String := none
deriving DecidableEq

/-- One record of the persisted JSON array (source lines 33-43 and section 6 of
the design): every field in its serialized form.  The timestamp is the decimal
digit string produced by `isoformat`, modelled as the digit list. -/
structure LogDict where
  id : String
  operator_code : String
  operator_role : String
  operation : String
  unit_id : Option String
  timestamp : List Nat
  status : String
  details : Option String
deriving DecidableEq

/-- `OperationLog.to_dict` (source lines 33-43). -/
def OperationLog.to_dict (l : OperationLog) : LogDict :=
  { id := l.id
    operator_code := l.operator_code
    operator_role := l.operator_role
    operation := l.operation.value
    unit_id := l.unit_id
    timestamp := Nat.digits 10 l.timestamp
    status := l.status
    details := l.details }

/-- Rebuilding one `OperationLog` from a persisted record: the body of the
list comprehension in `load_logs` (source lines 56-65).  `Operation(...)`
raises `ValueError` on an unknown string, hence the `Option`. -/
def parseLog (d : LogDict) : Option OperationLog :=
  match Operation.ofValue d.operation with
  | none => none
  | some op =>
    some { id := d.id
           operator_code := d.operator_code
           operator_role := d.operator_role
           operation := op
           unit_id := d.unit_id
           timestamp := Nat.ofDigits 10 d.timestamp
           status := d.status
           details := d.details }

/-- The whole list comprehension of `load_logs` (source lines 55-67); the
first failing record aborts the load, as the propagating `ValueError` does. -/
def parseLogs : List LogDict → Option (List OperationLog)
  | [] => some []
  | d :: rest =>
    match parseLog d, parseLogs rest with
    | some l, some ls => some (l :: ls)
    | _, _ => none

/-- `LogManager.save_logs` (source lines 71-73): the array written to the
file. -/
def save_logs (logs : List OperationLog) : List LogDict :=
  logs.map OperationLog.to_dict

/-- `LogManager.load_logs` (source lines 51-69).  The backing file is
`none` when it does not exist; that `FileNotFoundError` is caught and yields
the empty log, while a `ValueError` from an unparsable record propagates. -/
def load_logs (file : Option (List LogDict)) : Except String (List OperationLog) :=
  match file with
  | none => Except.ok []
  | some data =>
    match parseLogs data with
    | some ls => Except.ok ls
    | none => Except.error "ValueError"

/-- The in-memory state of a `LogManager` (source lines 45-49): its
materialized list of entries. -/
structure LogManager where
  logs : List OperationLog
deriving DecidableEq

/-- `LogManager.__init__` (source lines 46-49): the constructor loads the
backing file into `self.logs`. -/
def LogManager.init (file : Option (List LogDict)) : Except String LogManager :=
  (load_logs file).map fun ls => { logs := ls }

/-- `LogManager.add_log` (source lines 75-77): append, then rewrite the file
(the file after the call is `save_logs` of the new list). -/
def LogManager.add_log (m : LogManager) (l : OperationLog) : LogManager :=
  { m with logs := m.logs ++ [l] }

/-- `LogManager.get_logs_by_timerange` (source lines 85-89): inclusive filter
on the timestamp; pure, the manager is not modified. -/
def LogManager.get_logs_by_timerange (m : LogManager) (start stop : DateTime) :
    List OperationLog :=
  m.logs.filter fun l => decide (start ≤ l.timestamp ∧ l.timestamp ≤ stop)

/-- Python set insertion `s.add(x)` on a duplicate-free list model. -/
def setAdd (s : List Operation) (op : Operation) : List Operation :=
  if op ∈ s then s else s ++ [op]

/-- Python dict lookup `d.get(k)` / `d[k]` on an association-list model. -/
def dictGet {α : Type} : List (String × α) → String → Option α
  | [], _ => none
  | (k, v) :: rest, key => if k = key then some v else dictGet rest key

/-- Python dict assignment `d[k] = v`: replace the entry if the key exists,
append it otherwise. -/
def dictSet {α : Type} : List (String × α) → String → α → List (String × α)
  | [], key, v => [(key, v)]
  | (k, w) :: rest, key, v =>
    if k = key then (key, v) :: rest else (k, w) :: dictSet rest key v

/-- The class `Profile` (source lines 91-114).  The constructor starts with
empty permission collections (source lines 96-97). -/
structure Profile where
  name : String
  base_role : String
  operator_code : String
  unit_permissions : List (String × List Operation) := []
  global_permissions : List Operation := []
deriving DecidableEq

/-- `Profile.add_unit_permission` on the mapping itself (source lines 99-102):
create the per-unit set lazily if the key is absent, then add the operation. -/
def addToUnitMap : List (String × List Operation) → String → Operation →
    List (String × List Operation)
  | [], unit_id, op => [(unit_id, setAdd [] op)]
  | (k, s) :: rest, unit_id, op =>
    if k = unit_id then (k, setAdd s op) :: rest
    else (k, s) :: addToUnitMap rest unit_id op

/-- `Profile.add_unit_permission` (source lines 99-102). -/
def Profile.add_unit_permission (p : Profile) (unit_id : String)
    (operation : Operation) : Profile :=
  { p with unit_permissions := addToUnitMap p.unit_permissions unit_id operation }

/-- `Profile.add_global_permission` (source lines 104-105). -/
def Profile.add_global_permission (p : Profile) (operation : Operation) : Profile :=
  { p with global_permissions := setAdd p.global_permissions operation }

/-- `Profile.can_perform` (source lines 107-114).  Note the guard
`if unit_id and unit_id in self.unit_permissions`: `None` and the empty
string are both falsy, so the unit branch requires a non-empty unit id. -/
def Profile.can_perform (p : Profile) (operation : Operation)
    (unit_id : Option String := none) : Bool :=
  if operation ∈ p.global_permissions then true
  else
    match unit_id with
    | none => false
    | some u =>
      if u = "" then false
      else
        match dictGet p.unit_permissions u with
        | some s => decide (operation ∈ s)
        | none => false

/-- The class `ProfileManager` (source lines 116-133): the registry owning
profiles (keyed by name) and units (keyed by id).  Its `log_manager` field is
never used by the registry operations and is omitted. -/
structure ProfileManager where
  profiles : List (String × Profile) := []
  units : List (String × OrgUnit) := []
deriving DecidableEq

/-- `ProfileManager.create_profile` (source lines 122-125): build a fresh
profile and assign it into the map, silently replacing any profile already
stored under that name. -/
def ProfileManager.create_profile (m : ProfileManager) (name base_role
    operator_code : String) : ProfileManager × Profile :=
  let profile : Profile :=
    { name := name, base_role := base_role, operator_code := operator_code }
  ({ m with profiles := dictSet m.profiles name profile }, profile)

/-- `ProfileManager.add_unit` (source lines 127-130): build a unit and assign
it into the map, silently replacing any unit already stored under that id. -/
def ProfileManager.add_unit (m : ProfileManager) (unit_id name : String) :
    ProfileManager × OrgUnit :=
  let unit : OrgUnit := { id := unit_id, name := name }
  ({ m with units := dictSet m.units unit_id unit }, unit)

/-- `ProfileManager.get_profile` (source lines 132-133): `dict.get`, absence
is `none`. -/
def ProfileManager.get_profile (m : ProfileManager) (name : String) :
    Option Profile :=
  dictGet m.profiles name

/-- Python exceptions raised by `execute`; `PermissionError` carries its
message (source line 171). -/
inductive PyErr where
  | permissionError (msg : String)
deriving DecidableEq

/-- Python `str(e)` for a `PermissionError` (used at source line 177). -/
def PyErr.str : PyErr → String
  | .permissionError m => m

/-- The mutable world threaded through a gated execution: the audit store,
the demo body's `print` output (its external effect), the `uuid.uuid4()`
supply modelled as a counter, and the `datetime.now()` clock. -/
structure ExecState where
  log_manager : LogManager
  printed : List String := []
  nextId : Nat := 0
  now : DateTime := 0
deriving DecidableEq

/-- `GenerateReportAction.required_operation` (source lines 164-165). -/
def requiredOperation : Operation := .GENERATE_REPORTS

/-- `PermissionedAction.can_execute` (source lines 147-148). -/
def can_execute (p : Profile) (unit_id : Option String) : Bool :=
  p.can_perform requiredOperation unit_id

/-- `PermissionedAction.log_operation` (source lines 150-161): build one
`OperationLog` with a fresh uuid and the current time and hand it to
`LogManager.add_log`. -/
def log_operation (p : Profile) (unit_id : Option String) (status : String)
    (details : Option String) (st : ExecState) : ExecState :=
  let log : OperationLog :=
    { id := toString st.nextId
      operator_code := p.operator_code
      operator_role := p.base_role
      operation := requiredOperation
      unit_id := unit_id
      timestamp := st.now
      status := status
      details := details }
  { st with log_manager := st.log_manager.add_log log, nextId := st.nextId + 1 }

/-- Python `str` of the optional unit id, for the printed message. -/
def pyStrOfOptId : Option String → String
  | none => "None"
  | some s => s

/-- `GenerateReportAction.execute` (source lines 167-178).  The permission
check, on failure, logs FAILED and raises `PermissionError` inside the `try`
block; that exception is then caught by the `except Exception` handler, which
logs a second entry with status ERROR and `str(e)` before re-raising.  On
success the body (the `print`) runs and a single SUCCESS entry is logged. -/
def GenerateReportAction.execute (p : Profile) (unit_id : Option String)
    (st : ExecState) : Except PyErr Unit × ExecState :=
  if can_execute p unit_id then
    let st1 := { st with
      printed := st.printed ++ ["Generating report for unit " ++ pyStrOfOptId unit_id] }
    let st2 := log_operation p unit_id "SUCCESS"
      (some "Report generated successfully") st1
    (Except.ok (), st2)
  else
    let st1 := log_operation p unit_id "FAILED" (some "Insufficient permissions") st
    let e := PyErr.permissionError "Profile does not have permission to generate reports"
    let st2 := log_operation p unit_id "ERROR" (some e.str) st1
    (Except.error e, st2)

/-! Concrete fixtures, drawn from the demo `main` (source lines 180-201). -/

/-- The demo profile `admin2`: only `VIEW_REPORTS` on `UNIT1` (source lines
191-192), hence denied `GENERATE_REPORTS`. -/
def admin2 : Profile :=
  (⟨"admin2", "administrator", "ADM002", [], []⟩ : Profile).add_unit_permission
    "UNIT1" Operation.VIEW_REPORTS

/-- An initial execution state over an empty audit store. -/
def st0 : ExecState := { log_manager := { logs := [] } }

/-- A profile whose only grant sits under the empty-string unit key (reachable
through `add_unit_permission ""`). -/
def pEmptyKey : Profile :=
  (⟨"p1", "auditor", "AUD001", [], []⟩ : Profile).add_unit_permission
    "" Operation.VIEW_REPORTS

/-- A fresh profile with no grants, as `create_profile` builds it. -/
def pFresh : Profile := ⟨"admin1", "administrator", "ADM001", [], []⟩

/-- A profile holding a global `VIEW_REPORTS` grant. -/
def pGlobal : Profile :=
  (⟨"sys1", "administrator", "ADM009", [], []⟩ : Profile).add_global_permission
    Operation.VIEW_REPORTS

/-- An audit entry stamped at time `n`. -/
def entryAt (n : Nat) : OperationLog :=
  { id := toString n
    operator_code := "ADM001"
    operator_role := "administrator"
    operation := Operation.VIEW_REPORTS
    unit_id := none
    timestamp := n
    status := "SUCCESS"
    details := none }

/-- An empty registry. -/
def pm0 : ProfileManager := {}

/-! Helper lemmas about the set, dict and permission models. -/

theorem mem_setAdd {s : List Operation} {a b : Operation} :
    a ∈ setAdd s b ↔ a ∈ s ∨ a = b := by
  unfold setAdd
  split
  · rename_i hb
    constructor
    · exact Or.inl
    · rintro (h | rfl)
      · exact h
      · exact hb
  · simp [List.mem_append]

theorem self_mem_setAdd {s : List Operation} {b : Operation} : b ∈ setAdd s b :=
  mem_setAdd.mpr (Or.inr rfl)

theorem setAdd_of_mem {s : List Operation} {b : Operation} (h : b ∈ s) :
    setAdd s b = s := by
  simp [setAdd, h]

theorem setAdd_idem (s : List Operation) (b : Operation) :
    setAdd (setAdd s b) b = setAdd s b :=
  setAdd_of_mem self_mem_setAdd

theorem nodup_setAdd {s : List Operation} {b : Operation} (h : s.Nodup) :
    (setAdd s b).Nodup := by
  unfold setAdd
  split
  · exact h
  · rename_i hb
    simp [List.nodup_append, h, hb]

theorem count_setAdd_self {s : List Operation} {b : Operation} (h : s.Nodup) :
    (setAdd s b).count b = 1 :=
  List.count_eq_one_of_mem (nodup_setAdd h) self_mem_setAdd

theorem dictGet_dictSet_self {α : Type} (d : List (String × α)) (k : String)
    (v : α) : dictGet (dictSet d k v) k = some v := by
  induction d with
  | nil => simp [dictSet, dictGet]
  | cons kv rest ih =>
    obtain ⟨k1, v1⟩ := kv
    by_cases h : k1 = k <;> simp [dictSet, dictGet, h, ih]

theorem dictGet_addToUnitMap_self (d : List (String × List Operation))
    (u : String) (op : Operation) :
    dictGet (addToUnitMap d u op) u = some (setAdd ((dictGet d u).getD []) op) := by
  induction d with
  | nil => simp [addToUnitMap, dictGet]
  | cons kv rest ih =>
    obtain ⟨k1, s1⟩ := kv
    by_cases h : k1 = u <;> simp [addToUnitMap, dictGet, h, ih]

theorem dictGet_addToUnitMap_ne (d : List (String × List Operation))
    (u v : String) (op : Operation) (h : v ≠ u) :
    dictGet (addToUnitMap d u op) v = dictGet d v := by
  induction d with
  | nil => simp [addToUnitMap, dictGet, h.symm]
  | cons kv rest ih =>
    obtain ⟨k1, s1⟩ := kv
    by_cases h1 : k1 = u
    · simp [addToUnitMap, dictGet, h1, h.symm]
    · simp [addToUnitMap, dictGet, h1, ih]

theorem addToUnitMap_idem (d : List (String × List Operation)) (u : String)
    (op : Operation) :
    addToUnitMap (addToUnitMap d u op) u op = addToUnitMap d u op := by
  induction d with
  | nil => simp [addToUnitMap, setAdd_idem]
  | cons kv rest ih =>
    obtain ⟨k1, s1⟩ := kv
    by_cases h : k1 = u <;> simp [addToUnitMap, h, setAdd_idem, ih]

theorem canPerform_eq_true_iff (p : Profile) (op : Operation) (u : Option String) :
    p.can_perform op u = true ↔
      op ∈ p.global_permissions ∨
      ∃ v s, u = some v ∧ v ≠ "" ∧ dictGet p.unit_permissions v = some s ∧ op ∈ s := by
  unfold Profile.can_perform
  split
  · rename_i hg
    simp [hg]
  · rename_i hg
    cases u with
    | none => simp [hg]
    | some v =>
      by_cases hv : v = ""
      · subst hv
        simp [hg]
      · cases hs : dictGet p.unit_permissions v with
        | none => simp [hg, hv, hs]
        | some s => simp [hg, hv, hs]

/-! Claim theorems. -/

/-- C1: refuted by the code at a concrete failing input.  With profile
`admin2` (only `VIEW_REPORTS` on `UNIT1`, so `GENERATE_REPORTS` is denied),
one call to `GenerateReportAction.execute` appends TWO entries to the audit
store, not one: the FAILED denial entry, and then an ERROR entry, because the
`except` handler catches the `PermissionError` the gate itself raised inside
the `try` block and logs again before re-raising. -/
theorem execute_denied_appends_two_entries :
    ((GenerateReportAction.execute admin2 (some "UNIT1") st0).2.log_manager.logs.length
      = st0.log_manager.logs.length + 2) ∧
    ((GenerateReportAction.execute admin2 (some "UNIT1") st0).2.log_manager.logs.map
      (fun l => l.status) = ["FAILED", "ERROR"]) := by
  constructor <;> rfl

/-- C2: when the permission decision is false, `execute` appends a FAILED
entry with details "Insufficient permissions" (carrying the operation, unit
and operator context), the call ends in a `PermissionError`, and the action
body is never invoked: the printed output, the body's only effect, is
unchanged. -/
theorem execute_denied_logs_failed (p : Profile) (u : Option String)
    (st : ExecState) (h : can_execute p u = false) :
    (GenerateReportAction.execute p u st).1 =
      Except.error (PyErr.permissionError
        "Profile does not have permission to generate reports") ∧
    (GenerateReportAction.execute p u st).2.log_manager.logs =
      st.log_manager.logs ++
        [{ id := toString st.nextId, operator_code := p.operator_code,
           operator_role := p.base_role, operation := Operation.GENERATE_REPORTS,
           unit_id := u, timestamp := st.now, status := "FAILED",
           details := some "Insufficient permissions" },
         { id := toString (st.nextId + 1), operator_code := p.operator_code,
           operator_role := p.base_role, operation := Operation.GENERATE_REPORTS,
           unit_id := u, timestamp := st.now, status := "ERROR",
           details := some "Profile does not have permission to generate reports" }] ∧
    (GenerateReportAction.execute p u st).2.printed = st.printed := by
  simp [GenerateReportAction.execute, h, log_operation, LogManager.add_log,
    PyErr.str, requiredOperation]

/-- Witness for C2 at the demo's denied input. -/
theorem execute_denied_logs_failed_witness :
    can_execute admin2 (some "UNIT1") = false ∧
    ((GenerateReportAction.execute admin2 (some "UNIT1") st0).1 =
      Except.error (PyErr.permissionError
        "Profile does not have permission to generate reports") ∧
    (GenerateReportAction.execute admin2 (some "UNIT1") st0).2.log_manager.logs =
      st0.log_manager.logs ++
        [{ id := toString st0.nextId, operator_code := admin2.operator_code,
           operator_role := admin2.base_role, operation := Operation.GENERATE_REPORTS,
           unit_id := some "UNIT1", timestamp := st0.now, status := "FAILED",
           details := some "Insufficient permissions" },
         { id := toString (st0.nextId + 1), operator_code := admin2.operator_code,
           operator_role := admin2.base_role, operation := Operation.GENERATE_REPORTS,
           unit_id := some "UNIT1", timestamp := st0.now, status := "ERROR",
           details := some "Profile does not have permission to generate reports" }] ∧
    (GenerateReportAction.execute admin2 (some "UNIT1") st0).2.printed = st0.printed) :=
  ⟨by decide, execute_denied_logs_failed admin2 (some "UNIT1") st0 (by decide)⟩

/-- C3 counterexample: a profile whose unit-permission mapping has an entry
under the empty-string key containing the operation.  The claim's condition
"u is provided, u is a key of the mapping, and O is in that unit's set" holds
at `u = some ""`, yet `can_perform` returns false: the Python guard
`if unit_id and ...` treats the provided empty string as falsy. -/
theorem canPerform_claim_counterexample :
    dictGet pEmptyKey.unit_permissions "" = some [Operation.VIEW_REPORTS] ∧
    pEmptyKey.global_permissions = [] ∧
    pEmptyKey.can_perform Operation.VIEW_REPORTS (some "") = false := by
  decide

/-- C3 as amended: the decision is true iff the operation is granted globally,
or the unit argument is a provided NON-EMPTY string that is a key of the
unit-permission mapping whose set contains the operation. -/
theorem canPerform_characterization (p : Profile) (op : Operation)
    (u : Option String) :
    p.can_perform op u = true ↔
      op ∈ p.global_permissions ∨
      ∃ v s, u = some v ∧ v ≠ "" ∧ dictGet p.unit_permissions v = some s ∧ op ∈ s :=
  canPerform_eq_true_iff p op u

/-- C4 counterexample: creating a profile under an existing name, or a unit
under an existing id, does not fail — the second call completes and silently
replaces the stored entry (no `DuplicateKeyError` exists in the code). -/
theorem create_profile_silent_overwrite_cex :
    ((pm0.create_profile "admin1" "administrator" "ADM001").1.get_profile
      "admin1").isSome ∧
    (((pm0.create_profile "admin1" "administrator" "ADM001").1.create_profile
        "admin1" "auditor" "AUD001").1.get_profile "admin1"
      = some { name := "admin1", base_role := "auditor", operator_code := "AUD001" }) ∧
    (((pm0.add_unit "UNIT1" "Marketing").1.add_unit "UNIT1" "Sales").1.units
      = [("UNIT1", { id := "UNIT1", name := "Sales" })]) := by
  decide

/-- C4 as amended: `create_profile` and `add_unit` insert unconditionally;
after the call the registry maps the key to the freshly built value,
overwriting any previous entry, and neither operation can fail. -/
theorem create_profile_add_unit_overwrite (m : ProfileManager)
    (name base_role operator_code uid uname : String) :
    ((m.create_profile name base_role operator_code).1.get_profile name =
      some { name := name, base_role := base_role, operator_code := operator_code }) ∧
    ((m.create_profile name base_role operator_code).2 =
      { name := name, base_role := base_role, operator_code := operator_code }) ∧
    (dictGet (m.add_unit uid uname).1.units uid = some { id := uid, name := uname }) := by
  refine ⟨?_, rfl, ?_⟩
  · simp [ProfileManager.create_profile, ProfileManager.get_profile,
      dictGet_dictSet_self]
  · simp [ProfileManager.add_unit, dictGet_dictSet_self]

/-- C5: granting twice is a no-op leaving exactly one entry for the
operation in the relevant set (hypotheses: the sets are genuine sets, i.e.
duplicate-free, as Python guarantees); the per-unit set is created lazily on
the first unit grant; both grant operations are total. -/
theorem grant_idempotent (p : Profile) (u : String) (op : Operation)
    (hg : p.global_permissions.Nodup)
    (hu : ((dictGet p.unit_permissions u).getD []).Nodup) :
    ((p.add_global_permission op).add_global_permission op).global_permissions =
      (p.add_global_permission op).global_permissions ∧
    ((p.add_global_permission op).add_global_permission op).global_permissions.count op
      = 1 ∧
    ((p.add_unit_permission u op).add_unit_permission u op).unit_permissions =
      (p.add_unit_permission u op).unit_permissions ∧
    (∃ s, dictGet ((p.add_unit_permission u op).add_unit_permission u op).unit_permissions u
        = some s ∧ s.count op = 1) ∧
    (dictGet p.unit_permissions u = none →
      dictGet (p.add_unit_permission u op).unit_permissions u = some [op]) := by
  refine ⟨?_, ?_, ?_, ?_, ?_⟩
  · simp [Profile.add_global_permission, setAdd_idem]
  · have hh : ((p.add_global_permission op).add_global_permission op).global_permissions
        = setAdd p.global_permissions op := by
      simp [Profile.add_global_permission, setAdd_idem]
    rw [hh]
    exact count_setAdd_self hg
  · simp [Profile.add_unit_permission, addToUnitMap_idem]
  · refine ⟨setAdd (setAdd ((dictGet p.unit_permissions u).getD []) op) op, ?_, ?_⟩
    · simp [Profile.add_unit_permission, dictGet_addToUnitMap_self]
    · exact count_setAdd_self (nodup_setAdd hu)
  · intro h
    simp [Profile.add_unit_permission, dictGet_addToUnitMap_self, h, setAdd]

/-- Witness for C5 on a fresh profile. -/
theorem grant_idempotent_witness :
    pFresh.global_permissions.Nodup ∧
    ((dictGet pFresh.unit_permissions "UNIT1").getD []).Nodup ∧
    (((pFresh.add_global_permission Operation.GENERATE_REPORTS).add_global_permission
        Operation.GENERATE_REPORTS).global_permissions =
      (pFresh.add_global_permission Operation.GENERATE_REPORTS).global_permissions ∧
    ((pFresh.add_global_permission Operation.GENERATE_REPORTS).add_global_permission
        Operation.GENERATE_REPORTS).global_permissions.count Operation.GENERATE_REPORTS
      = 1 ∧
    ((pFresh.add_unit_permission "UNIT1" Operation.GENERATE_REPORTS).add_unit_permission
        "UNIT1" Operation.GENERATE_REPORTS).unit_permissions =
      (pFresh.add_unit_permission "UNIT1" Operation.GENERATE_REPORTS).unit_permissions ∧
    (∃ s, dictGet ((pFresh.add_unit_permission "UNIT1"
          Operation.GENERATE_REPORTS).add_unit_permission "UNIT1"
          Operation.GENERATE_REPORTS).unit_permissions "UNIT1"
        = some s ∧ s.count Operation.GENERATE_REPORTS = 1) ∧
    (dictGet pFresh.unit_permissions "UNIT1" = none →
      dictGet (pFresh.add_unit_permission "UNIT1"
          Operation.GENERATE_REPORTS).unit_permissions "UNIT1"
        = some [Operation.GENERATE_REPORTS])) :=
  ⟨by decide, by decide,
    grant_idempotent pFresh "UNIT1" Operation.GENERATE_REPORTS (by decide) (by decide)⟩

/-- Parsing inverts serialization record-by-record. -/
theorem parseLog_to_dict (l : OperationLog) : parseLog l.to_dict = some l := by
  cases l with
  | mk id operator_code operator_role operation unit_id timestamp status details =>
    cases operation <;>
      simp [OperationLog.to_dict, parseLog, Operation.value, Operation.ofValue,
        Nat.ofDigits_digits]

/-- C6: the round-trip property — saving any list of entries and reloading it
yields the same entries, field for field, in the original order (so also the
same count). -/
theorem save_load_roundtrip (logs : List OperationLog) :
    load_logs (some (save_logs logs)) = Except.ok logs := by
  have h : parseLogs (save_logs logs) = some logs := by
    unfold save_logs
    induction logs with
    | nil => rfl
    | cons l rest ih => simp [parseLogs, parseLog_to_dict, ih]
  simp [load_logs, h]

/-- C7: `get_logs_by_timerange` returns exactly the stored entries whose
timestamp lies in the inclusive range, as a sublist of the log (hence in
insertion order); the manager itself is a pure input and is not modified.
The concrete scenario: three entries at times 0, 1, 2 and range [0, 1] give
exactly the first two, in order. -/
theorem get_logs_by_timerange_spec :
    (∀ (m : LogManager) (start stop : DateTime),
      (m.get_logs_by_timerange start stop).Sublist m.logs ∧
      (∀ l, l ∈ m.get_logs_by_timerange start stop ↔
        l ∈ m.logs ∧ start ≤ l.timestamp ∧ l.timestamp ≤ stop)) ∧
    (LogManager.get_logs_by_timerange { logs := [entryAt 0, entryAt 1, entryAt 2] } 0 1
      = [entryAt 0, entryAt 1]) := by
  constructor
  · intro m start stop
    refine ⟨List.filter_sublist _, ?_⟩
    intro l
    simp [LogManager.get_logs_by_timerange]
  · decide

/-- C8: with no prior store file, loading yields the empty log and no error;
the constructor materializes an empty manager. -/
theorem load_missing_file_is_empty :
    load_logs none = Except.ok [] ∧
    LogManager.init none = Except.ok { logs := [] } :=
  ⟨rfl, rfl⟩

/-- C9: a provided empty-string unit id behaves exactly like an absent unit:
the decision reduces to global membership, whatever the unit-permission
mapping holds under the empty-string key. -/
theorem canPerform_empty_string_unit (p : Profile) (op : Operation) :
    (p.can_perform op (some "") = true) ↔ op ∈ p.global_permissions := by
  rw [canPerform_eq_true_iff]
  simp

/-- C10: granting never revokes — any true decision stays true after any
further global or unit grant. -/
theorem grants_monotone (p : Profile) (o oNew : Operation) (u : Option String)
    (uNew : String) (h : p.can_perform o u = true) :
    (p.add_global_permission oNew).can_perform o u = true ∧
    (p.add_unit_permission uNew oNew).can_perform o u = true := by
  rw [canPerform_eq_true_iff] at h
  constructor
  · rw [canPerform_eq_true_iff]
    rcases h with hg | ⟨v, s, rfl, hv, hs, hm⟩
    · exact Or.inl (by simp [Profile.add_global_permission, mem_setAdd, hg])
    · exact Or.inr ⟨v, s, rfl, hv, by simpa [Profile.add_global_permission] using hs, hm⟩
  · rw [canPerform_eq_true_iff]
    rcases h with hg | ⟨v, s, rfl, hv, hs, hm⟩
    · exact Or.inl (by simpa [Profile.add_unit_permission] using hg)
    · by_cases hvu : v = uNew
      · subst hvu
        refine Or.inr ⟨v, setAdd ((dictGet p.unit_permissions v).getD []) oNew, rfl, hv,
          ?_, ?_⟩
        · simp [Profile.add_unit_permission, dictGet_addToUnitMap_self]
        · rw [hs]
          exact mem_setAdd.mpr (Or.inl hm)
      · exact Or.inr ⟨v, s, rfl, hv,
          by simp [Profile.add_unit_permission, dictGet_addToUnitMap_ne _ _ _ _ hvu, hs],
          hm⟩

/-- Witness for C10: a global grant survives two further grants. -/
theorem grants_monotone_witness :
    pGlobal.can_perform Operation.VIEW_REPORTS (some "UNIT2") = true ∧
    ((pGlobal.add_global_permission Operation.MANAGE_UNIT).can_perform
        Operation.VIEW_REPORTS (some "UNIT2") = true ∧
    (pGlobal.add_unit_permission "UNIT9" Operation.MANAGE_UNIT).can_perform
        Operation.VIEW_REPORTS (some "UNIT2") = true) :=
  ⟨by decide,
    grants_monotone pGlobal Operation.VIEW_REPORTS Operation.MANAGE_UNIT
      (some "UNIT2") "UNIT9" (by decide)⟩
